import Mathlib

/-!
Verification of the Sportify repetition-counting core
(`src/ml/inference/rep_counter.py`).

Modelling conventions:
* Landmark coordinates and visibilities are rationals (`ℚ`); the decimal
  thresholds of the source (`0.5`, `0.1`, `-0.05`, `0.02`) become the
  corresponding rationals.
* Angles are produced by `numpy` arithmetic in the source.  A degenerate
  input (a zero-length ray) makes the cosine `0/0 = NaN`, which then
  propagates through `clip`, `arccos` and `degrees` without raising.  We
  model a float angle as `Option ℝ`, where `none` stands for `NaN`; the
  comparison helpers `floatLt` / `floatGt` reproduce IEEE semantics
  (every comparison with `NaN` is false).
* A Python dict result is a record whose fields are all `Option`-valued:
  a `none` field models an absent key, so the empty dict `{}` is the
  record with every field `none`.
* The mutable `RepCounter` object becomes a state record; each method is
  a function from the old state (and the frame's landmarks) to the new
  state together with the returned triple.
-/

namespace Sportify

/-- `PoseLandmark` dataclass: x, y coordinates and a visibility score. -/
structure PoseLandmark where
  x : ℚ
  y : ℚ
  visibility : ℚ
deriving DecidableEq, Repr

/-- A landmark dict, keyed by joint name; lookup takes the first binding. -/
abbrev Landmarks := List (String × PoseLandmark)

/-- `landmarks.get(name)` / `name in landmarks` on the landmark dict. -/
def lmGet (landmarks : Landmarks) (name : String) : Option PoseLandmark :=
  match landmarks with
  | [] => none
  | (k, v) :: rest => if k = name then some v else lmGet rest name

/-- The `ExerciseType` enum. -/
inductive ExerciseType where
  | SQUAT
  | PUSHUP
  | JUMP
  | PULLUP
deriving DecidableEq, Repr

/-- String value of an `ExerciseType` member. -/
def ExerciseType.value : ExerciseType → String
  | .SQUAT => "squat"
  | .PUSHUP => "pushup"
  | .JUMP => "jump"
  | .PULLUP => "pullup"

/-- `ExerciseType(s)`: construction from a string fails fast on unknown
values (`ValueError` becomes `none`). -/
def ExerciseType.ofString (s : String) : Option ExerciseType :=
  if s = "squat" then some .SQUAT
  else if s = "pushup" then some .PUSHUP
  else if s = "jump" then some .JUMP
  else if s = "pullup" then some .PULLUP
  else none

/-- The `ExercisePhase` enum. -/
inductive ExercisePhase where
  | NEUTRAL
  | DOWN
  | UP
  | EXTENDED
deriving DecidableEq, Repr

/-- String value of an `ExercisePhase` member. -/
def ExercisePhase.value : ExercisePhase → String
  | .NEUTRAL => "neutral"
  | .DOWN => "down"
  | .UP => "up"
  | .EXTENDED => "extended"

/-- A float angle: `none` models IEEE `NaN` (produced by `0/0`). -/
abbrev FloatAngle := Option ℝ

/-- `a < c` on a possibly-NaN float: any comparison with NaN is false. -/
def floatLt (a : FloatAngle) (c : ℝ) : Prop :=
  match a with
  | none => False
  | some x => x < c

/-- `a > c` on a possibly-NaN float: any comparison with NaN is false. -/
def floatGt (a : FloatAngle) (c : ℝ) : Prop :=
  match a with
  | none => False
  | some x => c < x

/-- `AngleCalculator.calculate_angle`: the angle at vertex `point2`,
via the dot-product / arccos formula, with the cosine clipped to
`[-1, 1]`.  When a ray has zero length the numpy cosine is `0/0 = NaN`
and the whole result is NaN (`none`); otherwise the result is
`degrees(arccos(clip(cos)))`. -/
noncomputable def calculate_angle (point1 point2 point3 : PoseLandmark) : FloatAngle :=
  let bax : ℚ := point1.x - point2.x
  let bay : ℚ := point1.y - point2.y
  let bcx : ℚ := point3.x - point2.x
  let bcy : ℚ := point3.y - point2.y
  if (bax = 0 ∧ bay = 0) ∨ (bcx = 0 ∧ bcy = 0) then
    none
  else
    let cosine_angle : ℝ := ((bax * bcx + bay * bcy : ℚ) : ℝ) /
      (Real.sqrt ((bax ^ 2 + bay ^ 2 : ℚ) : ℝ) * Real.sqrt ((bcx ^ 2 + bcy ^ 2 : ℚ) : ℝ))
    some (Real.arccos (max (-1) (min cosine_angle 1)) * 180 / Real.pi)

/-- A posture/continuation analysis dict.  Every field is optional: a
`none` field is an absent key, so `{}` (all defaults) is the empty dict
returned by `update` on an empty landmark set. -/
structure AnalysisResult where
  score : Option ℤ := none
  errors : Option (List String) := none
  knee_angle : Option FloatAngle := none
  back_angle : Option FloatAngle := none
  elbow_angle : Option FloatAngle := none
  body_angle : Option FloatAngle := none
  rep_count : Option ℕ := none
  phase : Option String := none
  displacement : Option ℚ := none

/-- Visibility gate of the posture analyzers: every required joint is
present and has visibility `> 0.5`. -/
def visibleOk (landmarks : Landmarks) (required : List String) : Bool :=
  required.all fun name =>
    match lmGet landmarks name with
    | some p => decide ((1 : ℚ) / 2 < p.visibility)
    | none => false

/-- Placeholder landmark used to model a dict access that the gate has
already proven present (`landmarks['left_hip']` after the `all` check);
it is never the value actually read on the reachable path. -/
def dummyLandmark : PoseLandmark := { x := 0, y := 0, visibility := 0 }

/-- `required_landmarks` of `analyze_squat_posture`. -/
def squat_required_landmarks : List String :=
  ["left_hip", "left_knee", "left_ankle", "left_shoulder"]

/-- `required_landmarks` of `analyze_pushup_posture`. -/
def pushup_required_landmarks : List String :=
  ["left_shoulder", "left_elbow", "left_wrist", "left_hip"]

open Classical in
/-- `PostureAnalyzer.analyze_squat_posture`. -/
noncomputable def analyze_squat_posture (landmarks : Landmarks) : AnalysisResult :=
  if visibleOk landmarks squat_required_landmarks = false then
    { score := some 0, errors := some ["Pose not clearly visible"] }
  else
    let hip := (lmGet landmarks "left_hip").getD dummyLandmark
    let knee := (lmGet landmarks "left_knee").getD dummyLandmark
    let ankle := (lmGet landmarks "left_ankle").getD dummyLandmark
    let shoulder := (lmGet landmarks "left_shoulder").getD dummyLandmark
    let knee_angle := calculate_angle hip knee ankle
    let back_angle := calculate_angle shoulder hip knee
    let kneePart : ℤ × List String :=
      if floatLt knee_angle 70 then (10, ["Squat too deep"])
      else if floatGt knee_angle 160 then (15, ["Squat not deep enough"])
      else (0, [])
    let backPart : ℤ × List String :=
      if floatLt back_angle 160 then (20, ["Back bent forward"])
      else (0, [])
    { score := some (max 0 (100 - kneePart.1 - backPart.1)),
      errors := some (kneePart.2 ++ backPart.2),
      knee_angle := some knee_angle,
      back_angle := some back_angle }

open Classical in
/-- `PostureAnalyzer.analyze_pushup_posture`. -/
noncomputable def analyze_pushup_posture (landmarks : Landmarks) : AnalysisResult :=
  if visibleOk landmarks pushup_required_landmarks = false then
    { score := some 0, errors := some ["Pose not clearly visible"] }
  else
    let shoulder := (lmGet landmarks "left_shoulder").getD dummyLandmark
    let elbow := (lmGet landmarks "left_elbow").getD dummyLandmark
    let wrist := (lmGet landmarks "left_wrist").getD dummyLandmark
    let hip := (lmGet landmarks "left_hip").getD dummyLandmark
    let elbow_angle := calculate_angle shoulder elbow wrist
    let thirdPoint :=
      match lmGet landmarks "left_knee" with
      | some knee => knee
      | none => hip
    let body_angle := calculate_angle shoulder hip thirdPoint
    let elbowPart : ℤ × List String :=
      if floatGt elbow_angle 170 then (15, ["Lower chest closer to ground"])
      else if floatLt elbow_angle 45 then (10, ["Chest too close to ground"])
      else (0, [])
    let bodyPart : ℤ × List String :=
      if floatLt body_angle 160 then (20, ["Keep body in straight line"])
      else (0, [])
    { score := some (max 0 (100 - elbowPart.1 - bodyPart.1)),
      errors := some (elbowPart.2 ++ bodyPart.2),
      elbow_angle := some elbow_angle,
      body_angle := some body_angle }

/-- Per-exercise threshold profile. -/
structure Thresholds where
  down_threshold : ℚ
  up_threshold : ℚ
  min_hold_frames : ℕ
deriving DecidableEq, Repr

/-- `RepCounter._get_exercise_thresholds`: `thresholds.get(type, {})`;
the pull-up entry is absent, giving the empty dict (`none`). -/
def _get_exercise_thresholds : ExerciseType → Option Thresholds
  | .SQUAT => some { down_threshold := 110, up_threshold := 160, min_hold_frames := 3 }
  | .PUSHUP => some { down_threshold := 90, up_threshold := 160, min_hold_frames := 2 }
  | .JUMP => some { down_threshold := -1/20, up_threshold := 1/10, min_hold_frames := 2 }
  | .PULLUP => none

/-- State of a `RepCounter` object.  `baseline_y = none` models the
`baseline_y` attribute not existing (`hasattr` is false). -/
structure RepCounter where
  exercise_type : ExerciseType
  confidence_threshold : ℚ
  rep_count : ℕ
  current_phase : ExercisePhase
  phase_history : List ExercisePhase
  baseline_y : Option ℚ
  thresholds : Option Thresholds
deriving DecidableEq, Repr

/-- `RepCounter.__init__` for an already-validated exercise type. -/
def RepCounter.init (et : ExerciseType) (confidence_threshold : ℚ) : RepCounter :=
  { exercise_type := et
    confidence_threshold := confidence_threshold
    rep_count := 0
    current_phase := .NEUTRAL
    phase_history := []
    baseline_y := none
    thresholds := _get_exercise_thresholds et }

/-- `RepCounter(exercise_type, confidence_threshold)`: string validation
fails fast (`ValueError` becomes `none`). -/
def RepCounter.mkCounter (exercise_type : String) (confidence_threshold : ℚ) :
    Option RepCounter :=
  (ExerciseType.ofString exercise_type).map fun et =>
    RepCounter.init et confidence_threshold

/-- Fallback thresholds for the (unreachable) case of a counter whose
stored threshold dict is empty: `update` routes only squat, push-up and
jump counters to the `_count` helpers, and `init` always stores a
populated profile for those kinds. -/
def emptyThresholds : Thresholds :=
  { down_threshold := 0, up_threshold := 0, min_hold_frames := 0 }

open Classical in
/-- The squat phase machine on one frame's knee angle
(`_count_squats`, state-transition part). -/
noncomputable def squatStep (th : Thresholds) (phase : ExercisePhase) (rep : ℕ)
    (knee_angle : FloatAngle) : ExercisePhase × ℕ :=
  match phase with
  | .NEUTRAL =>
      if floatLt knee_angle (th.down_threshold : ℝ) then (.DOWN, rep) else (.NEUTRAL, rep)
  | .DOWN =>
      if floatGt knee_angle (th.up_threshold : ℝ) then (.UP, rep + 1) else (.DOWN, rep)
  | .UP =>
      if floatGt knee_angle (th.up_threshold : ℝ) then (.NEUTRAL, rep) else (.UP, rep)
  | .EXTENDED => (.EXTENDED, rep)

open Classical in
/-- The push-up phase machine on one frame's elbow angle
(`_count_pushups`, state-transition part). -/
noncomputable def pushupStep (th : Thresholds) (phase : ExercisePhase) (rep : ℕ)
    (elbow_angle : FloatAngle) : ExercisePhase × ℕ :=
  match phase with
  | .NEUTRAL =>
      if floatLt elbow_angle (th.down_threshold : ℝ) then (.DOWN, rep) else (.NEUTRAL, rep)
  | .DOWN =>
      if floatGt elbow_angle (th.up_threshold : ℝ) then (.UP, rep + 1) else (.DOWN, rep)
  | .UP =>
      if floatGt elbow_angle (th.up_threshold : ℝ) then (.NEUTRAL, rep) else (.UP, rep)
  | .EXTENDED => (.EXTENDED, rep)

/-- The jump phase machine on one frame's vertical displacement
(`_count_jumps`, state-transition part; `0.02` is the fixed epsilon). -/
def jumpStep (th : Thresholds) (phase : ExercisePhase) (rep : ℕ)
    (displacement : ℚ) : ExercisePhase × ℕ :=
  match phase with
  | .NEUTRAL =>
      if th.up_threshold < displacement then (.UP, rep) else (.NEUTRAL, rep)
  | .UP =>
      if displacement < th.down_threshold then (.DOWN, rep + 1) else (.UP, rep)
  | .DOWN =>
      if |displacement| < 1/50 then (.NEUTRAL, rep) else (.DOWN, rep)
  | .EXTENDED => (.EXTENDED, rep)

/-- `RepCounter._count_squats`. -/
noncomputable def _count_squats (c : RepCounter) (landmarks : Landmarks) :
    RepCounter × ℕ × String × AnalysisResult :=
  let analysis := analyze_squat_posture landmarks
  match analysis.knee_angle with
  | none => (c, c.rep_count, c.current_phase.value, analysis)
  | some knee_angle =>
      let th := c.thresholds.getD emptyThresholds
      let pr := squatStep th c.current_phase c.rep_count knee_angle
      ({ c with current_phase := pr.1, rep_count := pr.2 },
       pr.2, pr.1.value,
       { analysis with rep_count := some pr.2, phase := some pr.1.value })

/-- `RepCounter._count_pushups`. -/
noncomputable def _count_pushups (c : RepCounter) (landmarks : Landmarks) :
    RepCounter × ℕ × String × AnalysisResult :=
  let analysis := analyze_pushup_posture landmarks
  match analysis.elbow_angle with
  | none => (c, c.rep_count, c.current_phase.value, analysis)
  | some elbow_angle =>
      let th := c.thresholds.getD emptyThresholds
      let pr := pushupStep th c.current_phase c.rep_count elbow_angle
      ({ c with current_phase := pr.1, rep_count := pr.2 },
       pr.2, pr.1.value,
       { analysis with rep_count := some pr.2, phase := some pr.1.value })

/-- `RepCounter._count_jumps`.  The baseline is captured lazily: when
no `baseline_y` attribute exists it is set to the current average ankle
height, so the first valid frame has displacement `0`. -/
def _count_jumps (c : RepCounter) (landmarks : Landmarks) :
    RepCounter × ℕ × String × AnalysisResult :=
  let analysis : AnalysisResult := { score := some 100, errors := some [] }
  match lmGet landmarks "left_ankle", lmGet landmarks "right_ankle" with
  | some la, some ra =>
      let avg_ankle_y := (la.y + ra.y) / 2
      let baseline_y := c.baseline_y.getD avg_ankle_y
      let displacement := baseline_y - avg_ankle_y
      let th := c.thresholds.getD emptyThresholds
      let pr := jumpStep th c.current_phase c.rep_count displacement
      ({ c with current_phase := pr.1, rep_count := pr.2, baseline_y := some baseline_y },
       pr.2, pr.1.value,
       { analysis with rep_count := some pr.2, phase := some pr.1.value,
                       displacement := some displacement })
  | _, _ => (c, c.rep_count, c.current_phase.value, analysis)

/-- `RepCounter.update`: empty landmark set returns the empty dict and
leaves the state untouched; otherwise dispatch on the exercise type
(pull-up has no counting logic and also returns the empty dict). -/
noncomputable def RepCounter.update (c : RepCounter) (landmarks : Landmarks) :
    RepCounter × ℕ × String × AnalysisResult :=
  if landmarks = [] then (c, c.rep_count, c.current_phase.value, {})
  else
    match c.exercise_type with
    | .SQUAT => _count_squats c landmarks
    | .PUSHUP => _count_pushups c landmarks
    | .JUMP => _count_jumps c landmarks
    | .PULLUP => (c, c.rep_count, c.current_phase.value, {})

/-- `RepCounter.reset`: zero the count, return to neutral, clear the
history and delete the baseline attribute if present. -/
def RepCounter.reset (c : RepCounter) : RepCounter :=
  { c with rep_count := 0
           current_phase := .NEUTRAL
           phase_history := []
           baseline_y := none }

/-- Run a sequence of per-frame updates, returning the final state. -/
noncomputable def runCounter (c : RepCounter) : List Landmarks → RepCounter
  | [] => c
  | lm :: rest => runCounter (c.update lm).1 rest

/-- Run a sequence of per-frame updates, returning the list of returned
`(rep_count, phase, analysis)` triples. -/
noncomputable def runOutputs (c : RepCounter) : List Landmarks → List (ℕ × String × AnalysisResult)
  | [] => []
  | lm :: rest => (c.update lm).2 :: runOutputs (c.update lm).1 rest

/-- One step along the exercise's defined cycle (or staying put):
`NEUTRAL → DOWN → UP → NEUTRAL` for squat and push-up,
`NEUTRAL → UP → DOWN → NEUTRAL` for jump. -/
def cycleAdjacent (et : ExerciseType) (p q : ExercisePhase) : Prop :=
  q = p ∨
  match et with
  | .SQUAT | .PUSHUP =>
      (p = .NEUTRAL ∧ q = .DOWN) ∨ (p = .DOWN ∧ q = .UP) ∨ (p = .UP ∧ q = .NEUTRAL)
  | .JUMP =>
      (p = .NEUTRAL ∧ q = .UP) ∨ (p = .UP ∧ q = .DOWN) ∨ (p = .DOWN ∧ q = .NEUTRAL)
  | .PULLUP => False

/-! ### Helper lemmas -/

@[simp] theorem floatLt_some (x c : ℝ) : floatLt (some x) c ↔ x < c := Iff.rfl

@[simp] theorem floatLt_none (c : ℝ) : floatLt none c ↔ False := Iff.rfl

@[simp] theorem floatGt_some (x c : ℝ) : floatGt (some x) c ↔ c < x := Iff.rfl

@[simp] theorem floatGt_none (c : ℝ) : floatGt none c ↔ False := Iff.rfl

/-- Setting only `confidence_threshold` commutes with `update`: the
field is stored at construction but never read by the per-frame logic. -/
theorem update_set_ct (c : RepCounter) (ct : ℚ) (lm : Landmarks) :
    RepCounter.update { c with confidence_threshold := ct } lm =
      ({ (c.update lm).1 with confidence_threshold := ct }, (c.update lm).2) := by
  rcases c with ⟨et, ct0, rc, ph, hist, base, th⟩
  by_cases hlm : lm = []
  · subst hlm; rfl
  · cases et
    · simp only [RepCounter.update, if_neg hlm]
      rcases h : (analyze_squat_posture lm).knee_angle with _ | ka <;>
        simp [_count_squats, h]
    · simp only [RepCounter.update, if_neg hlm]
      rcases h : (analyze_pushup_posture lm).elbow_angle with _ | ea <;>
        simp [_count_pushups, h]
    · simp only [RepCounter.update, if_neg hlm]
      rcases h1 : lmGet lm "left_ankle" with _ | la <;>
        rcases h2 : lmGet lm "right_ankle" with _ | ra <;>
          simp [_count_jumps, h1, h2]
    · simp only [RepCounter.update, if_neg hlm]

/-- `runCounter` commutes with setting `confidence_threshold`. -/
theorem runCounter_set_ct (frames : List Landmarks) :
    ∀ (c : RepCounter) (ct : ℚ),
      runCounter { c with confidence_threshold := ct } frames =
        { runCounter c frames with confidence_threshold := ct } := by
  induction frames with
  | nil => intro c ct; rfl
  | cons lm rest ih =>
      intro c ct
      simp only [runCounter, update_set_ct]
      exact ih _ ct

/-- `runOutputs` ignores `confidence_threshold` entirely. -/
theorem runOutputs_set_ct (frames : List Landmarks) :
    ∀ (c : RepCounter) (ct : ℚ),
      runOutputs { c with confidence_threshold := ct } frames =
        runOutputs c frames := by
  induction frames with
  | nil => intro c ct; rfl
  | cons lm rest ih =>
      intro c ct
      simp only [runOutputs, update_set_ct]
      rw [ih]

/-- A zero-length second ray (`point3 = point2`) yields the NaN angle. -/
theorem calculate_angle_same_ray_nan (p1 p2 : PoseLandmark) :
    calculate_angle p1 p2 p2 = none := by
  simp [calculate_angle]

/-- Perpendicular rays (zero dot product) yield exactly 90 degrees. -/
theorem calculate_angle_eq_90 (p1 p2 p3 : PoseLandmark)
    (hdot : (p1.x - p2.x) * (p3.x - p2.x) + (p1.y - p2.y) * (p3.y - p2.y) = 0)
    (hba : ¬ (p1.x - p2.x = 0 ∧ p1.y - p2.y = 0))
    (hbc : ¬ (p3.x - p2.x = 0 ∧ p3.y - p2.y = 0)) :
    calculate_angle p1 p2 p3 = some 90 := by
  simp only [calculate_angle]
  rw [if_neg (not_or.mpr ⟨hba, hbc⟩)]
  congr 1
  rw [hdot]
  simp only [Rat.cast_zero, zero_div]
  have hmm : max (-1 : ℝ) (min 0 1) = 0 := by norm_num
  rw [hmm, Real.arccos_zero]
  field_simp
  ring

/-- Anti-parallel vertical rays (straight line through the vertex)
yield exactly 180 degrees. -/
theorem calculate_angle_eq_180 (p1 p2 p3 : PoseLandmark) (a b : ℚ)
    (ha : 0 < a) (hb : 0 < b)
    (h1x : p1.x - p2.x = 0) (h1y : p1.y - p2.y = -a)
    (h3x : p3.x - p2.x = 0) (h3y : p3.y - p2.y = b) :
    calculate_angle p1 p2 p3 = some 180 := by
  simp only [calculate_angle]
  rw [h1x, h1y, h3x, h3y]
  rw [if_neg (by simp [ha.ne', hb.ne'])]
  congr 1
  have e1 : ((0 : ℚ) ^ 2 + (-a) ^ 2 : ℚ) = a ^ 2 := by ring
  have e2 : ((0 : ℚ) ^ 2 + b ^ 2 : ℚ) = b ^ 2 := by ring
  have e3 : ((0 : ℚ) * 0 + -a * b : ℚ) = -(a * b) := by ring
  rw [e1, e2, e3]
  have ha' : (0 : ℝ) < (a : ℝ) := by exact_mod_cast ha
  have hb' : (0 : ℝ) < (b : ℝ) := by exact_mod_cast hb
  have s1 : Real.sqrt ((a ^ 2 : ℚ) : ℝ) = (a : ℝ) := by
    rw [show ((a ^ 2 : ℚ) : ℝ) = (a : ℝ) ^ 2 by push_cast; ring]
    exact Real.sqrt_sq ha'.le
  have s2 : Real.sqrt ((b ^ 2 : ℚ) : ℝ) = (b : ℝ) := by
    rw [show ((b ^ 2 : ℚ) : ℝ) = (b : ℝ) ^ 2 by push_cast; ring]
    exact Real.sqrt_sq hb'.le
  rw [s1, s2]
  have hcos : ((-(a * b) : ℚ) : ℝ) / ((a : ℝ) * (b : ℝ)) = -1 := by
    push_cast
    rw [neg_div, div_self (by positivity)]
  rw [hcos]
  have hmm : max (-1 : ℝ) (min (-1) 1) = -1 := by norm_num
  rw [hmm, Real.arccos_neg_one]
  rw [mul_comm, mul_div_assoc, div_self Real.pi_ne_zero, mul_one]

/-! ### Claim theorems -/

/-- Claim C8: when the vertex coincides with one of the endpoints (a
zero-length ray) the angle computation is total and returns the NaN
marker instead of faulting; for every non-degenerate triple the result
is an angle in `[0, 180]` degrees (the cosine is clamped to `[-1, 1]`
before `arccos`). -/
theorem calculate_angle_safety :
    ∀ p1 p2 p3 : PoseLandmark,
      (((p1.x = p2.x ∧ p1.y = p2.y) ∨ (p3.x = p2.x ∧ p3.y = p2.y)) →
        calculate_angle p1 p2 p3 = none) ∧
      (¬ ((p1.x = p2.x ∧ p1.y = p2.y) ∨ (p3.x = p2.x ∧ p3.y = p2.y)) →
        calculate_angle p1 p2 p3 ≠ none ∧
        ∀ θ : ℝ, calculate_angle p1 p2 p3 = some θ → 0 ≤ θ ∧ θ ≤ 180) := by
  intro p1 p2 p3
  have hcond : ((p1.x - p2.x = 0 ∧ p1.y - p2.y = 0) ∨ (p3.x - p2.x = 0 ∧ p3.y - p2.y = 0)) ↔
      ((p1.x = p2.x ∧ p1.y = p2.y) ∨ (p3.x = p2.x ∧ p3.y = p2.y)) := by
    simp [sub_eq_zero]
  constructor
  · intro h
    simp only [calculate_angle]
    rw [if_pos (hcond.mpr h)]
  · intro h
    constructor
    · simp only [calculate_angle]
      rw [if_neg (fun hc => h (hcond.mp hc))]
      simp
    · intro θ hθ
      simp only [calculate_angle] at hθ
      rw [if_neg (fun hc => h (hcond.mp hc))] at hθ
      have hval := Option.some.inj hθ
      subst hval
      constructor
      · apply div_nonneg _ Real.pi_pos.le
        exact mul_nonneg (Real.arccos_nonneg _) (by norm_num)
      · rw [div_le_iff₀ Real.pi_pos]
        have harc := Real.arccos_le_pi (max (-1)
          (min (((p1.x - p2.x) * (p3.x - p2.x) + (p1.y - p2.y) * (p3.y - p2.y) : ℚ) /
            (Real.sqrt (((p1.x - p2.x) ^ 2 + (p1.y - p2.y) ^ 2 : ℚ) : ℝ) *
             Real.sqrt (((p3.x - p2.x) ^ 2 + (p3.y - p2.y) ^ 2 : ℚ) : ℝ))) 1))
        nlinarith [Real.pi_pos]

/-- If some required joint is absent or has visibility at most `0.5`,
the analyzer gate is down. -/
theorem visibleOk_eq_false (lm : Landmarks) (req : List String) (j : String)
    (hj : j ∈ req)
    (hbad : lmGet lm j = none ∨ ∃ p, lmGet lm j = some p ∧ p.visibility ≤ 1/2) :
    visibleOk lm req = false := by
  rw [Bool.eq_false_iff]
  intro hall
  rw [visibleOk, List.all_eq_true] at hall
  have hjj := hall j hj
  rcases hbad with h | ⟨p, hp, hv⟩
  · rw [h] at hjj
    exact absurd hjj (by simp)
  · rw [hp] at hjj
    simp only [decide_eq_true_eq] at hjj
    exact absurd hjj (not_lt.mpr hv)

/-- Claim C4: for squat and push-up, a required joint that is absent or
has visibility at most `0.5` makes the analyzer return exactly
`{score: 0, errors: ["Pose not clearly visible"]}` (all angle fields
absent), and the per-frame update leaves rep count and phase unchanged. -/
theorem missing_landmark_gate :
    ∀ lm : Landmarks,
      ((∃ j ∈ squat_required_landmarks,
          lmGet lm j = none ∨ ∃ p, lmGet lm j = some p ∧ p.visibility ≤ 1/2) →
        analyze_squat_posture lm =
          { score := some 0, errors := some ["Pose not clearly visible"] } ∧
        (∀ c : RepCounter, c.exercise_type = .SQUAT →
          (c.update lm).1.rep_count = c.rep_count ∧
          (c.update lm).1.current_phase = c.current_phase)) ∧
      ((∃ j ∈ pushup_required_landmarks,
          lmGet lm j = none ∨ ∃ p, lmGet lm j = some p ∧ p.visibility ≤ 1/2) →
        analyze_pushup_posture lm =
          { score := some 0, errors := some ["Pose not clearly visible"] } ∧
        (∀ c : RepCounter, c.exercise_type = .PUSHUP →
          (c.update lm).1.rep_count = c.rep_count ∧
          (c.update lm).1.current_phase = c.current_phase)) := by
  intro lm
  constructor
  · rintro ⟨j, hj, hbad⟩
    have hgate := visibleOk_eq_false lm squat_required_landmarks j hj hbad
    have hana : analyze_squat_posture lm =
        { score := some 0, errors := some ["Pose not clearly visible"] } := by
      simp [analyze_squat_posture, hgate]
    refine ⟨hana, ?_⟩
    intro c htype
    rcases c with ⟨et, ct, rc, ph, hist, base, th⟩
    cases htype
    by_cases hlm : lm = []
    · subst hlm
      exact ⟨rfl, rfl⟩
    · simp [RepCounter.update, if_neg hlm, _count_squats, hana]
  · rintro ⟨j, hj, hbad⟩
    have hgate := visibleOk_eq_false lm pushup_required_landmarks j hj hbad
    have hana : analyze_pushup_posture lm =
        { score := some 0, errors := some ["Pose not clearly visible"] } := by
      simp [analyze_pushup_posture, hgate]
    refine ⟨hana, ?_⟩
    intro c htype
    rcases c with ⟨et, ct, rc, ph, hist, base, th⟩
    cases htype
    by_cases hlm : lm = []
    · subst hlm
      exact ⟨rfl, rfl⟩
    · simp [RepCounter.update, if_neg hlm, _count_pushups, hana]

/-- Witness for C4: a frame with only a low-visibility hip trips the
gate and leaves a squat counter's state unchanged. -/
theorem missing_landmark_gate_witness :
    analyze_squat_posture [("left_hip", ⟨0, 0, 3/10⟩)] =
      { score := some 0, errors := some ["Pose not clearly visible"] } ∧
    ((RepCounter.init .SQUAT (7/10)).update [("left_hip", ⟨0, 0, 3/10⟩)]).1.rep_count = 0 := by
  have h := (missing_landmark_gate [("left_hip", ⟨0, 0, 3/10⟩)]).1
    ⟨"left_knee", by simp [squat_required_landmarks], Or.inl rfl⟩
  exact ⟨h.1, (h.2 (RepCounter.init .SQUAT (7/10)) rfl).1⟩

open Classical in
/-- Claim C5: with all required joints visible, the squat score is 100
minus 10 (knee angle below 70) or else 15 (knee angle above 160), minus
an independent 20 when the back angle is below 160, floored at 0 and
never negative, with the error messages in check order. -/
theorem squat_scoring_spec :
    ∀ (lm : Landmarks) (hip knee ankle shoulder : PoseLandmark) (kθ bθ : ℝ),
      visibleOk lm squat_required_landmarks = true →
      lmGet lm "left_hip" = some hip →
      lmGet lm "left_knee" = some knee →
      lmGet lm "left_ankle" = some ankle →
      lmGet lm "left_shoulder" = some shoulder →
      calculate_angle hip knee ankle = some kθ →
      calculate_angle shoulder hip knee = some bθ →
      analyze_squat_posture lm =
        { score := some (max 0 (100 - (if kθ < 70 then 10 else if 160 < kθ then 15 else 0)
            - (if bθ < 160 then 20 else 0))),
          errors := some ((if kθ < 70 then ["Squat too deep"]
              else if 160 < kθ then ["Squat not deep enough"] else []) ++
            (if bθ < 160 then ["Back bent forward"] else [])),
          knee_angle := some (some kθ),
          back_angle := some (some bθ) } ∧
      (∀ s : ℤ, (analyze_squat_posture lm).score = some s → 0 ≤ s) := by
  intro lm hip knee ankle shoulder kθ bθ hvis hhip hknee hankle hshoulder hk hb
  have hmain : analyze_squat_posture lm =
      { score := some (max 0 (100 - (if kθ < 70 then 10 else if 160 < kθ then 15 else 0)
          - (if bθ < 160 then 20 else 0))),
        errors := some ((if kθ < 70 then ["Squat too deep"]
            else if 160 < kθ then ["Squat not deep enough"] else []) ++
          (if bθ < 160 then ["Back bent forward"] else [])),
        knee_angle := some (some kθ),
        back_angle := some (some bθ) } := by
    simp only [analyze_squat_posture, hvis]
    rw [if_neg (by simp)]
    simp only [hhip, hknee, hankle, hshoulder, Option.getD_some, hk, hb,
      floatLt_some, floatGt_some]
    split_ifs <;> simp
  refine ⟨hmain, ?_⟩
  intro s hs
  rw [hmain] at hs
  have h2 := Option.some.inj hs
  rw [← h2]
  exact le_max_left 0 _

/-- Witness for C5: a fully-visible collinear squat pose (knee and back
angles both exactly 180) scores `100 - 15 = 85` with the single "not
deep enough" message. -/
theorem squat_scoring_spec_witness :
    analyze_squat_posture
      [("left_hip", ⟨0, 0, 1⟩), ("left_knee", ⟨0, 1, 1⟩),
       ("left_ankle", ⟨0, 2, 1⟩), ("left_shoulder", ⟨0, -1, 1⟩)] =
      { score := some 85, errors := some ["Squat not deep enough"],
        knee_angle := some (some 180), back_angle := some (some 180) } := by
  have hk : calculate_angle ⟨0, 0, 1⟩ ⟨0, 1, 1⟩ ⟨0, 2, 1⟩ = some 180 := by
    apply calculate_angle_eq_180 _ _ _ 1 1 <;> norm_num
  have hb : calculate_angle ⟨0, -1, 1⟩ ⟨0, 0, 1⟩ ⟨0, 1, 1⟩ = some 180 := by
    apply calculate_angle_eq_180 _ _ _ 1 1 <;> norm_num
  have l1 : lmGet [("left_hip", ⟨0, 0, 1⟩), ("left_knee", ⟨0, 1, 1⟩),
      ("left_ankle", ⟨0, 2, 1⟩), ("left_shoulder", ⟨0, -1, 1⟩)] "left_hip" =
      some ⟨0, 0, 1⟩ := rfl
  have l2 : lmGet [("left_hip", ⟨0, 0, 1⟩), ("left_knee", ⟨0, 1, 1⟩),
      ("left_ankle", ⟨0, 2, 1⟩), ("left_shoulder", ⟨0, -1, 1⟩)] "left_knee" =
      some ⟨0, 1, 1⟩ := rfl
  have l3 : lmGet [("left_hip", ⟨0, 0, 1⟩), ("left_knee", ⟨0, 1, 1⟩),
      ("left_ankle", ⟨0, 2, 1⟩), ("left_shoulder", ⟨0, -1, 1⟩)] "left_ankle" =
      some ⟨0, 2, 1⟩ := rfl
  have l4 : lmGet [("left_hip", ⟨0, 0, 1⟩), ("left_knee", ⟨0, 1, 1⟩),
      ("left_ankle", ⟨0, 2, 1⟩), ("left_shoulder", ⟨0, -1, 1⟩)] "left_shoulder" =
      some ⟨0, -1, 1⟩ := rfl
  have hvis : visibleOk [("left_hip", ⟨0, 0, 1⟩), ("left_knee", ⟨0, 1, 1⟩),
      ("left_ankle", ⟨0, 2, 1⟩), ("left_shoulder", ⟨0, -1, 1⟩)]
      squat_required_landmarks = true := by
    simp only [visibleOk, squat_required_landmarks, List.all_cons, List.all_nil,
      l1, l2, l3, l4]
    norm_num
  have h := (squat_scoring_spec
    [("left_hip", ⟨0, 0, 1⟩), ("left_knee", ⟨0, 1, 1⟩),
     ("left_ankle", ⟨0, 2, 1⟩), ("left_shoulder", ⟨0, -1, 1⟩)]
    ⟨0, 0, 1⟩ ⟨0, 1, 1⟩ ⟨0, 2, 1⟩ ⟨0, -1, 1⟩ 180 180
    hvis l1 l2 l3 l4 hk hb).1
  rw [h]
  norm_num

/-- Claim C6 counterexample: push-up frame with all required joints
visible and no knee; the body angle evaluates to NaN (not the claimed
zero), so the "Keep body in straight line" deduction does NOT fire:
the score stays 100 with no errors. -/
theorem pushup_nan_body_angle_counterexample :
    (analyze_pushup_posture
        [("left_shoulder", ⟨0, 0, 1⟩), ("left_elbow", ⟨1, 0, 1⟩),
         ("left_wrist", ⟨1, 1, 1⟩), ("left_hip", ⟨2, 2, 1⟩)]).body_angle = some none ∧
    (analyze_pushup_posture
        [("left_shoulder", ⟨0, 0, 1⟩), ("left_elbow", ⟨1, 0, 1⟩),
         ("left_wrist", ⟨1, 1, 1⟩), ("left_hip", ⟨2, 2, 1⟩)]).body_angle ≠ some (some 0) ∧
    (analyze_pushup_posture
        [("left_shoulder", ⟨0, 0, 1⟩), ("left_elbow", ⟨1, 0, 1⟩),
         ("left_wrist", ⟨1, 1, 1⟩), ("left_hip", ⟨2, 2, 1⟩)]).score = some 100 ∧
    (analyze_pushup_posture
        [("left_shoulder", ⟨0, 0, 1⟩), ("left_elbow", ⟨1, 0, 1⟩),
         ("left_wrist", ⟨1, 1, 1⟩), ("left_hip", ⟨2, 2, 1⟩)]).errors = some [] := by
  have helb : calculate_angle ⟨0, 0, 1⟩ ⟨1, 0, 1⟩ ⟨1, 1, 1⟩ = some 90 := by
    apply calculate_angle_eq_90 <;> norm_num
  have hbody : calculate_angle ⟨0, 0, 1⟩ ⟨2, 2, 1⟩ ⟨2, 2, 1⟩ = none :=
    calculate_angle_same_ray_nan _ _
  have l1 : lmGet [("left_shoulder", ⟨0, 0, 1⟩), ("left_elbow", ⟨1, 0, 1⟩),
      ("left_wrist", ⟨1, 1, 1⟩), ("left_hip", ⟨2, 2, 1⟩)] "left_shoulder" =
      some ⟨0, 0, 1⟩ := by decide
  have l2 : lmGet [("left_shoulder", ⟨0, 0, 1⟩), ("left_elbow", ⟨1, 0, 1⟩),
      ("left_wrist", ⟨1, 1, 1⟩), ("left_hip", ⟨2, 2, 1⟩)] "left_elbow" =
      some ⟨1, 0, 1⟩ := by decide
  have l3 : lmGet [("left_shoulder", ⟨0, 0, 1⟩), ("left_elbow", ⟨1, 0, 1⟩),
      ("left_wrist", ⟨1, 1, 1⟩), ("left_hip", ⟨2, 2, 1⟩)] "left_wrist" =
      some ⟨1, 1, 1⟩ := by decide
  have l4 : lmGet [("left_shoulder", ⟨0, 0, 1⟩), ("left_elbow", ⟨1, 0, 1⟩),
      ("left_wrist", ⟨1, 1, 1⟩), ("left_hip", ⟨2, 2, 1⟩)] "left_hip" =
      some ⟨2, 2, 1⟩ := by decide
  have l5 : lmGet [("left_shoulder", ⟨0, 0, 1⟩), ("left_elbow", ⟨1, 0, 1⟩),
      ("left_wrist", ⟨1, 1, 1⟩), ("left_hip", ⟨2, 2, 1⟩)] "left_knee" = none := by decide
  have hvis : visibleOk [("left_shoulder", ⟨0, 0, 1⟩), ("left_elbow", ⟨1, 0, 1⟩),
      ("left_wrist", ⟨1, 1, 1⟩), ("left_hip", ⟨2, 2, 1⟩)] pushup_required_landmarks =
      true := by
    simp only [visibleOk, pushup_required_landmarks, List.all_cons, List.all_nil,
      l1, l2, l3, l4]
    norm_num
  have h : analyze_pushup_posture
      [("left_shoulder", ⟨0, 0, 1⟩), ("left_elbow", ⟨1, 0, 1⟩),
       ("left_wrist", ⟨1, 1, 1⟩), ("left_hip", ⟨2, 2, 1⟩)] =
      { score := some 100, errors := some [],
        elbow_angle := some (some 90), body_angle := some none } := by
    simp only [analyze_pushup_posture, hvis]
    rw [if_neg (by simp)]
    simp only [l1, l2, l3, l4, l5, Option.getD_some, helb, hbody,
      floatLt_some, floatGt_some, floatLt_none]
    norm_num
  rw [h]
  refine ⟨rfl, by simp, rfl, rfl⟩

/-- Claim C6 (amended): with all required push-up joints visible and
the knee absent, the body-line computation falls back to the
shoulder-hip-hip triple, whose zero-length ray makes the numpy cosine
`0/0 = NaN`; the body angle is therefore NaN (not zero), every NaN
comparison is false so the straight-line deduction never fires, and no
error is raised. -/
theorem pushup_missing_knee_fallback :
    ∀ (lm : Landmarks) (shoulder hip : PoseLandmark),
      visibleOk lm pushup_required_landmarks = true →
      lmGet lm "left_shoulder" = some shoulder →
      lmGet lm "left_hip" = some hip →
      lmGet lm "left_knee" = none →
      (analyze_pushup_posture lm).body_angle = some none ∧
      (∀ E, (analyze_pushup_posture lm).errors = some E →
        "Keep body in straight line" ∉ E) := by
  intro lm shoulder hip hvis hsh hhip hknee
  have hbody : calculate_angle shoulder hip hip = none :=
    calculate_angle_same_ray_nan _ _
  have h : (analyze_pushup_posture lm).body_angle = some none ∧
      ∀ E, (analyze_pushup_posture lm).errors = some E →
        "Keep body in straight line" ∉ E := by
    simp only [analyze_pushup_posture]
    rw [if_neg (by simp [hvis])]
    simp only [hsh, hhip, hknee, Option.getD_some, hbody, floatLt_none]
    constructor
    · simp
    · intro E hE
      simp only [if_false] at hE
      have hE2 := Option.some.inj hE
      rw [← hE2]
      split_ifs <;> simp
  exact h

/-- Witness for the amended C6: the concrete no-knee frame indeed gets
a NaN body angle. -/
theorem pushup_missing_knee_fallback_witness :
    (analyze_pushup_posture
        [("left_shoulder", ⟨0, 0, 1⟩), ("left_elbow", ⟨1, 0, 1⟩),
         ("left_wrist", ⟨1, 1, 1⟩), ("left_hip", ⟨2, 2, 1⟩)]).body_angle = some none := by
  have l1 : lmGet [("left_shoulder", ⟨0, 0, 1⟩), ("left_elbow", ⟨1, 0, 1⟩),
      ("left_wrist", ⟨1, 1, 1⟩), ("left_hip", ⟨2, 2, 1⟩)] "left_shoulder" =
      some ⟨0, 0, 1⟩ := rfl
  have l2 : lmGet [("left_shoulder", ⟨0, 0, 1⟩), ("left_elbow", ⟨1, 0, 1⟩),
      ("left_wrist", ⟨1, 1, 1⟩), ("left_hip", ⟨2, 2, 1⟩)] "left_elbow" =
      some ⟨1, 0, 1⟩ := rfl
  have l3 : lmGet [("left_shoulder", ⟨0, 0, 1⟩), ("left_elbow", ⟨1, 0, 1⟩),
      ("left_wrist", ⟨1, 1, 1⟩), ("left_hip", ⟨2, 2, 1⟩)] "left_wrist" =
      some ⟨1, 1, 1⟩ := rfl
  have l4 : lmGet [("left_shoulder", ⟨0, 0, 1⟩), ("left_elbow", ⟨1, 0, 1⟩),
      ("left_wrist", ⟨1, 1, 1⟩), ("left_hip", ⟨2, 2, 1⟩)] "left_hip" =
      some ⟨2, 2, 1⟩ := rfl
  have hvis : visibleOk [("left_shoulder", ⟨0, 0, 1⟩), ("left_elbow", ⟨1, 0, 1⟩),
      ("left_wrist", ⟨1, 1, 1⟩), ("left_hip", ⟨2, 2, 1⟩)] pushup_required_landmarks =
      true := by
    simp only [visibleOk, pushup_required_landmarks, List.all_cons, List.all_nil,
      l1, l2, l3, l4]
    norm_num
  exact (pushup_missing_knee_fallback
    [("left_shoulder", ⟨0, 0, 1⟩), ("left_elbow", ⟨1, 0, 1⟩),
     ("left_wrist", ⟨1, 1, 1⟩), ("left_hip", ⟨2, 2, 1⟩)]
    ⟨0, 0, 1⟩ ⟨2, 2, 1⟩ hvis l1 l4 rfl).1

/-- Witness for C8: a coincident-vertex triple returns the NaN marker,
and a concrete right-angle triple gets an in-range angle (90 degrees). -/
theorem calculate_angle_safety_witness :
    calculate_angle ⟨0, 0, 1⟩ ⟨0, 0, 1⟩ ⟨1, 1, 1⟩ = none ∧
    (0 : ℝ) ≤ 90 ∧ (90 : ℝ) ≤ 180 := by
  have h90 : calculate_angle ⟨0, 0, 1⟩ ⟨1, 0, 1⟩ ⟨1, 1, 1⟩ = some 90 := by
    apply calculate_angle_eq_90 <;> norm_num
  refine ⟨(calculate_angle_safety ⟨0, 0, 1⟩ ⟨0, 0, 1⟩ ⟨1, 1, 1⟩).1 (Or.inl ⟨rfl, rfl⟩), ?_⟩
  exact ((calculate_angle_safety ⟨0, 0, 1⟩ ⟨1, 0, 1⟩ ⟨1, 1, 1⟩).2 (by norm_num)).2 90 h90

/-- Claim C7: `reset` restores `rep_count = 0`, phase `NEUTRAL`, an
empty phase history and no captured jump baseline, from every counter
state; it is idempotent; and after a reset the next jump frame with
both ankles present re-establishes the baseline as the average ankle
height of that frame. -/
theorem reset_restores_initial_state :
    (∀ c : RepCounter,
      c.reset.rep_count = 0 ∧ c.reset.current_phase = .NEUTRAL ∧
      c.reset.phase_history = [] ∧ c.reset.baseline_y = none ∧
      c.reset.reset = c.reset) ∧
    (∀ (c : RepCounter) (lm : Landmarks) (la ra : PoseLandmark),
      c.exercise_type = .JUMP → lm ≠ [] →
      lmGet lm "left_ankle" = some la → lmGet lm "right_ankle" = some ra →
      (c.reset.update lm).1.baseline_y = some ((la.y + ra.y) / 2)) := by
  constructor
  · intro c
    exact ⟨rfl, rfl, rfl, rfl, rfl⟩
  · intro c lm la ra htype hne hla hra
    rcases c with ⟨et, ct, rc, ph, hist, base, th⟩
    cases htype
    simp [RepCounter.reset, RepCounter.update, if_neg hne, _count_jumps, hla, hra]

/-- Witness for C7: a concrete reset jump counter re-captures the
baseline from the first frame where both ankles are present. -/
theorem reset_restores_initial_state_witness :
    (((RepCounter.init .JUMP (7/10)).reset).update
        [("left_ankle", ⟨0, 1, 1⟩), ("right_ankle", ⟨0, 1, 1⟩)]).1.baseline_y = some 1 := by
  have h := reset_restores_initial_state.2 (RepCounter.init .JUMP (7/10))
    [("left_ankle", ⟨0, 1, 1⟩), ("right_ankle", ⟨0, 1, 1⟩)] ⟨0, 1, 1⟩ ⟨0, 1, 1⟩
    rfl (by simp) rfl rfl
  simpa using h

/-- Claim C10 counterexample: on the empty landmark set a jump
counter's `update` returns the empty dict, whose `score` key is absent
— not `100` as the claim states for every landmark input. -/
theorem jump_empty_update_counterexample :
    ((RepCounter.init .JUMP (7/10)).update []).2.2.2.score = none ∧
    ((RepCounter.init .JUMP (7/10)).update []).2.2.2.score ≠ some 100 := by
  have h : ((RepCounter.init .JUMP (7/10)).update []).2.2.2.score = none := rfl
  exact ⟨h, by rw [h]; simp⟩

/-- Claim C10 (amended): for every NON-empty landmark set, a jump
counter's update returns an analysis with score `100` and an empty
error list, and when an ankle is missing the phase and rep count are
returned unchanged. -/
theorem jump_analysis_score_spec :
    ∀ (c : RepCounter) (lm : Landmarks),
      c.exercise_type = .JUMP → lm ≠ [] →
      (c.update lm).2.2.2.score = some 100 ∧
      (c.update lm).2.2.2.errors = some [] ∧
      ((lmGet lm "left_ankle" = none ∨ lmGet lm "right_ankle" = none) →
        (c.update lm).1.current_phase = c.current_phase ∧
        (c.update lm).1.rep_count = c.rep_count ∧
        (c.update lm).2.1 = c.rep_count) := by
  intro c lm htype hne
  rcases c with ⟨et, ct, rc, ph, hist, base, th⟩
  cases htype
  simp only [RepCounter.update, if_neg hne]
  rcases h1 : lmGet lm "left_ankle" with _ | la <;>
    rcases h2 : lmGet lm "right_ankle" with _ | ra <;>
      simp [_count_jumps, h1, h2]

/-- Witness for the amended C10: a nonempty frame with no ankles gets
score `100`, no errors, and an unchanged phase. -/
theorem jump_analysis_score_spec_witness :
    ((RepCounter.init .JUMP (7/10)).update [("nose", ⟨0, 0, 1⟩)]).2.2.2.score = some 100 ∧
    ((RepCounter.init .JUMP (7/10)).update [("nose", ⟨0, 0, 1⟩)]).1.current_phase =
      ExercisePhase.NEUTRAL := by
  have h := jump_analysis_score_spec (RepCounter.init .JUMP (7/10))
    [("nose", ⟨0, 0, 1⟩)] rfl (by simp)
  exact ⟨h.1, (h.2.2 (Or.inl rfl)).1⟩

/-- Claim C9: two counters for the same exercise kind that differ only
in `confidence_threshold` produce identical per-frame outputs and an
identical final session state (rep count, phase, history, baseline) on
every landmark sequence: the parameter never gates anything. -/
theorem confidence_threshold_noninterference :
    ∀ (et : ExerciseType) (ct1 ct2 : ℚ) (frames : List Landmarks),
      runOutputs (RepCounter.init et ct1) frames =
        runOutputs (RepCounter.init et ct2) frames ∧
      (runCounter (RepCounter.init et ct1) frames).rep_count =
        (runCounter (RepCounter.init et ct2) frames).rep_count ∧
      (runCounter (RepCounter.init et ct1) frames).current_phase =
        (runCounter (RepCounter.init et ct2) frames).current_phase ∧
      (runCounter (RepCounter.init et ct1) frames).phase_history =
        (runCounter (RepCounter.init et ct2) frames).phase_history ∧
      (runCounter (RepCounter.init et ct1) frames).baseline_y =
        (runCounter (RepCounter.init et ct2) frames).baseline_y := by
  intro et ct1 ct2 frames
  have h1 : RepCounter.init et ct1 =
      { RepCounter.init et ct2 with confidence_threshold := ct1 } := rfl
  rw [h1, runOutputs_set_ct, runCounter_set_ct]
  exact ⟨rfl, rfl, rfl, rfl, rfl⟩

/-- Every squat step either stays put or makes one legal move. -/
theorem squatStep_case_split (th : Thresholds) (p : ExercisePhase) (r : ℕ) (a : FloatAngle) :
    squatStep th p r a = (p, r) ∨
    (p = .NEUTRAL ∧ squatStep th p r a = (.DOWN, r)) ∨
    (p = .DOWN ∧ squatStep th p r a = (.UP, r + 1)) ∨
    (p = .UP ∧ squatStep th p r a = (.NEUTRAL, r)) := by
  cases p
  · by_cases h : floatLt a (th.down_threshold : ℝ)
    · exact Or.inr (Or.inl ⟨rfl, by simp [squatStep, h]⟩)
    · exact Or.inl (by simp [squatStep, h])
  · by_cases h : floatGt a (th.up_threshold : ℝ)
    · exact Or.inr (Or.inr (Or.inl ⟨rfl, by simp [squatStep, h]⟩))
    · exact Or.inl (by simp [squatStep, h])
  · by_cases h : floatGt a (th.up_threshold : ℝ)
    · exact Or.inr (Or.inr (Or.inr ⟨rfl, by simp [squatStep, h]⟩))
    · exact Or.inl (by simp [squatStep, h])
  · exact Or.inl (by simp [squatStep])

/-- Every push-up step either stays put or makes one legal move. -/
theorem pushupStep_case_split (th : Thresholds) (p : ExercisePhase) (r : ℕ) (a : FloatAngle) :
    pushupStep th p r a = (p, r) ∨
    (p = .NEUTRAL ∧ pushupStep th p r a = (.DOWN, r)) ∨
    (p = .DOWN ∧ pushupStep th p r a = (.UP, r + 1)) ∨
    (p = .UP ∧ pushupStep th p r a = (.NEUTRAL, r)) := by
  cases p
  · by_cases h : floatLt a (th.down_threshold : ℝ)
    · exact Or.inr (Or.inl ⟨rfl, by simp [pushupStep, h]⟩)
    · exact Or.inl (by simp [pushupStep, h])
  · by_cases h : floatGt a (th.up_threshold : ℝ)
    · exact Or.inr (Or.inr (Or.inl ⟨rfl, by simp [pushupStep, h]⟩))
    · exact Or.inl (by simp [pushupStep, h])
  · by_cases h : floatGt a (th.up_threshold : ℝ)
    · exact Or.inr (Or.inr (Or.inr ⟨rfl, by simp [pushupStep, h]⟩))
    · exact Or.inl (by simp [pushupStep, h])
  · exact Or.inl (by simp [pushupStep])

/-- Every jump step either stays put or makes one legal move. -/
theorem jumpStep_case_split (th : Thresholds) (p : ExercisePhase) (r : ℕ) (d : ℚ) :
    jumpStep th p r d = (p, r) ∨
    (p = .NEUTRAL ∧ jumpStep th p r d = (.UP, r)) ∨
    (p = .UP ∧ jumpStep th p r d = (.DOWN, r + 1)) ∨
    (p = .DOWN ∧ jumpStep th p r d = (.NEUTRAL, r)) := by
  cases p
  · by_cases h : th.up_threshold < d
    · exact Or.inr (Or.inl ⟨rfl, by simp [jumpStep, h]⟩)
    · exact Or.inl (by simp [jumpStep, h])
  · by_cases h : |d| < 1/50
    · refine Or.inr (Or.inr (Or.inr ⟨rfl, ?_⟩))
      simp only [jumpStep]
      rw [if_pos h]
    · refine Or.inl ?_
      simp only [jumpStep]
      rw [if_neg h]
  · by_cases h : d < th.down_threshold
    · exact Or.inr (Or.inr (Or.inl ⟨rfl, by simp [jumpStep, h]⟩))
    · exact Or.inl (by simp [jumpStep, h])
  · exact Or.inl (by simp [jumpStep])

/-- Full characterization of one `update` step: either nothing changes,
or the phase makes exactly one legal move of its exercise's cycle, with
the rep count bumped exactly on squat/push-up `DOWN → UP` and jump
`UP → DOWN`. -/
theorem update_transition_characterization (c : RepCounter) (lm : Landmarks) :
    ((c.update lm).1.current_phase = c.current_phase ∧
     (c.update lm).1.rep_count = c.rep_count) ∨
    ((c.exercise_type = .SQUAT ∨ c.exercise_type = .PUSHUP) ∧
      ((c.current_phase = .NEUTRAL ∧ (c.update lm).1.current_phase = .DOWN ∧
        (c.update lm).1.rep_count = c.rep_count) ∨
       (c.current_phase = .DOWN ∧ (c.update lm).1.current_phase = .UP ∧
        (c.update lm).1.rep_count = c.rep_count + 1) ∨
       (c.current_phase = .UP ∧ (c.update lm).1.current_phase = .NEUTRAL ∧
        (c.update lm).1.rep_count = c.rep_count))) ∨
    (c.exercise_type = .JUMP ∧
      ((c.current_phase = .NEUTRAL ∧ (c.update lm).1.current_phase = .UP ∧
        (c.update lm).1.rep_count = c.rep_count) ∨
       (c.current_phase = .UP ∧ (c.update lm).1.current_phase = .DOWN ∧
        (c.update lm).1.rep_count = c.rep_count + 1) ∨
       (c.current_phase = .DOWN ∧ (c.update lm).1.current_phase = .NEUTRAL ∧
        (c.update lm).1.rep_count = c.rep_count))) := by
  rcases c with ⟨et, ct, rc, ph, hist, base, th⟩
  by_cases hlm : lm = []
  · subst hlm
    exact Or.inl ⟨rfl, rfl⟩
  · cases et
    · rcases h : (analyze_squat_posture lm).knee_angle with _ | ka
      · exact Or.inl (by simp [RepCounter.update, if_neg hlm, _count_squats, h])
      · rcases squatStep_case_split (th.getD emptyThresholds) ph rc ka with
          h0 | ⟨hp, hs⟩ | ⟨hp, hs⟩ | ⟨hp, hs⟩
        · exact Or.inl (by simp [RepCounter.update, if_neg hlm, _count_squats, h, h0])
        · exact Or.inr (Or.inl ⟨Or.inl rfl, Or.inl ⟨hp,
            by simp [RepCounter.update, if_neg hlm, _count_squats, h, hs],
            by simp [RepCounter.update, if_neg hlm, _count_squats, h, hs]⟩⟩)
        · exact Or.inr (Or.inl ⟨Or.inl rfl, Or.inr (Or.inl ⟨hp,
            by simp [RepCounter.update, if_neg hlm, _count_squats, h, hs],
            by simp [RepCounter.update, if_neg hlm, _count_squats, h, hs]⟩)⟩)
        · exact Or.inr (Or.inl ⟨Or.inl rfl, Or.inr (Or.inr ⟨hp,
            by simp [RepCounter.update, if_neg hlm, _count_squats, h, hs],
            by simp [RepCounter.update, if_neg hlm, _count_squats, h, hs]⟩)⟩)
    · rcases h : (analyze_pushup_posture lm).elbow_angle with _ | ea
      · exact Or.inl (by simp [RepCounter.update, if_neg hlm, _count_pushups, h])
      · rcases pushupStep_case_split (th.getD emptyThresholds) ph rc ea with
          h0 | ⟨hp, hs⟩ | ⟨hp, hs⟩ | ⟨hp, hs⟩
        · exact Or.inl (by simp [RepCounter.update, if_neg hlm, _count_pushups, h, h0])
        · exact Or.inr (Or.inl ⟨Or.inr rfl, Or.inl ⟨hp,
            by simp [RepCounter.update, if_neg hlm, _count_pushups, h, hs],
            by simp [RepCounter.update, if_neg hlm, _count_pushups, h, hs]⟩⟩)
        · exact Or.inr (Or.inl ⟨Or.inr rfl, Or.inr (Or.inl ⟨hp,
            by simp [RepCounter.update, if_neg hlm, _count_pushups, h, hs],
            by simp [RepCounter.update, if_neg hlm, _count_pushups, h, hs]⟩)⟩)
        · exact Or.inr (Or.inl ⟨Or.inr rfl, Or.inr (Or.inr ⟨hp,
            by simp [RepCounter.update, if_neg hlm, _count_pushups, h, hs],
            by simp [RepCounter.update, if_neg hlm, _count_pushups, h, hs]⟩)⟩)
    · rcases h1 : lmGet lm "left_ankle" with _ | la
      · exact Or.inl (by simp [RepCounter.update, if_neg hlm, _count_jumps, h1])
      · rcases h2 : lmGet lm "right_ankle" with _ | ra
        · exact Or.inl (by simp [RepCounter.update, if_neg hlm, _count_jumps, h1, h2])
        · rcases jumpStep_case_split (th.getD emptyThresholds) ph rc
            (base.getD ((la.y + ra.y) / 2) - (la.y + ra.y) / 2) with
            h0 | ⟨hp, hs⟩ | ⟨hp, hs⟩ | ⟨hp, hs⟩
          · exact Or.inl (by simp [RepCounter.update, if_neg hlm, _count_jumps, h1, h2, h0])
          · exact Or.inr (Or.inr ⟨rfl, Or.inl ⟨hp,
              by simp [RepCounter.update, if_neg hlm, _count_jumps, h1, h2, hs],
              by simp [RepCounter.update, if_neg hlm, _count_jumps, h1, h2, hs]⟩⟩)
          · exact Or.inr (Or.inr ⟨rfl, Or.inr (Or.inl ⟨hp,
              by simp [RepCounter.update, if_neg hlm, _count_jumps, h1, h2, hs],
              by simp [RepCounter.update, if_neg hlm, _count_jumps, h1, h2, hs]⟩)⟩)
          · exact Or.inr (Or.inr ⟨rfl, Or.inr (Or.inr ⟨hp,
              by simp [RepCounter.update, if_neg hlm, _count_jumps, h1, h2, hs],
              by simp [RepCounter.update, if_neg hlm, _count_jumps, h1, h2, hs]⟩)⟩)
    · exact Or.inl (by simp [RepCounter.update, if_neg hlm])

/-- Claim C3: rep count is monotone, each update raises it by at most
one — by exactly one only on squat/push-up `DOWN → UP` and jump
`UP → DOWN` — and each update moves the phase at most one step along
the exercise's defined cycle, never skipping. -/
theorem rep_count_invariants :
    (∀ (c : RepCounter) (lm : Landmarks),
      c.rep_count ≤ (c.update lm).1.rep_count ∧
      (c.update lm).1.rep_count ≤ c.rep_count + 1 ∧
      ((c.update lm).1.rep_count = c.rep_count + 1 →
        (((c.exercise_type = .SQUAT ∨ c.exercise_type = .PUSHUP) ∧
          c.current_phase = .DOWN ∧ (c.update lm).1.current_phase = .UP) ∨
         (c.exercise_type = .JUMP ∧
          c.current_phase = .UP ∧ (c.update lm).1.current_phase = .DOWN))) ∧
      cycleAdjacent c.exercise_type c.current_phase (c.update lm).1.current_phase) ∧
    (∀ (c : RepCounter) (frames : List Landmarks),
      c.rep_count ≤ (runCounter c frames).rep_count) := by
  have step : ∀ (c : RepCounter) (lm : Landmarks),
      c.rep_count ≤ (c.update lm).1.rep_count ∧
      (c.update lm).1.rep_count ≤ c.rep_count + 1 ∧
      ((c.update lm).1.rep_count = c.rep_count + 1 →
        (((c.exercise_type = .SQUAT ∨ c.exercise_type = .PUSHUP) ∧
          c.current_phase = .DOWN ∧ (c.update lm).1.current_phase = .UP) ∨
         (c.exercise_type = .JUMP ∧
          c.current_phase = .UP ∧ (c.update lm).1.current_phase = .DOWN))) ∧
      cycleAdjacent c.exercise_type c.current_phase (c.update lm).1.current_phase := by
    intro c lm
    rcases update_transition_characterization c lm with
      ⟨hph, hrc⟩ | ⟨het, hcase⟩ | ⟨het, hcase⟩
    · refine ⟨by omega, by omega, fun hinc => absurd hinc (by omega), Or.inl hph⟩
    · rcases hcase with ⟨hp, hq, hr⟩ | ⟨hp, hq, hr⟩ | ⟨hp, hq, hr⟩
      · refine ⟨by omega, by omega, fun hinc => absurd hinc (by omega), ?_⟩
        rcases het with het | het <;> rw [het] <;>
          exact Or.inr (Or.inl ⟨hp, hq⟩)
      · refine ⟨by omega, by omega, fun _ => Or.inl ⟨het, hp, hq⟩, ?_⟩
        rcases het with het | het <;> rw [het] <;>
          exact Or.inr (Or.inr (Or.inl ⟨hp, hq⟩))
      · refine ⟨by omega, by omega, fun hinc => absurd hinc (by omega), ?_⟩
        rcases het with het | het <;> rw [het] <;>
          exact Or.inr (Or.inr (Or.inr ⟨hp, hq⟩))
    · rcases hcase with ⟨hp, hq, hr⟩ | ⟨hp, hq, hr⟩ | ⟨hp, hq, hr⟩
      · refine ⟨by omega, by omega, fun hinc => absurd hinc (by omega), ?_⟩
        rw [het]
        exact Or.inr (Or.inl ⟨hp, hq⟩)
      · refine ⟨by omega, by omega, fun _ => Or.inr ⟨het, hp, hq⟩, ?_⟩
        rw [het]
        exact Or.inr (Or.inr (Or.inl ⟨hp, hq⟩))
      · refine ⟨by omega, by omega, fun hinc => absurd hinc (by omega), ?_⟩
        rw [het]
        exact Or.inr (Or.inr (Or.inr ⟨hp, hq⟩))
  refine ⟨step, ?_⟩
  intro c frames
  induction frames generalizing c with
  | nil => exact Nat.le_refl _
  | cons lm rest ih =>
      have h1 := (step c lm).1
      simp only [runCounter]
      exact le_trans h1 (ih _)

/-- Witness for C3: a concrete jump counter in phase `UP` that lands
(displacement `-1/10 < -1/20`) increments the count, and the theorem's
increment characterization forces the new phase to be `DOWN`. -/
theorem rep_count_invariants_witness :
    (({ (RepCounter.init .JUMP (7/10)) with
          current_phase := ExercisePhase.UP
          baseline_y := some 1 } : RepCounter).update
      [("left_ankle", ⟨0, 11/10, 1⟩), ("right_ankle", ⟨0, 11/10, 1⟩)]).1.current_phase =
      ExercisePhase.DOWN := by
  have hla : lmGet [("left_ankle", (⟨0, 11/10, 1⟩ : PoseLandmark)),
      ("right_ankle", ⟨0, 11/10, 1⟩)] "left_ankle" = some ⟨0, 11/10, 1⟩ := rfl
  have hra : lmGet [("left_ankle", (⟨0, 11/10, 1⟩ : PoseLandmark)),
      ("right_ankle", ⟨0, 11/10, 1⟩)] "right_ankle" = some ⟨0, 11/10, 1⟩ := rfl
  have h := (rep_count_invariants.1
    { (RepCounter.init .JUMP (7/10)) with
      current_phase := ExercisePhase.UP
      baseline_y := some 1 }
    [("left_ankle", ⟨0, 11/10, 1⟩), ("right_ankle", ⟨0, 11/10, 1⟩)]).2.2.1
  have hinc : (({ (RepCounter.init .JUMP (7/10)) with
      current_phase := ExercisePhase.UP
      baseline_y := some 1 } : RepCounter).update
      [("left_ankle", ⟨0, 11/10, 1⟩), ("right_ankle", ⟨0, 11/10, 1⟩)]).1.rep_count = 0 + 1 := by
    have hne : ([("left_ankle", (⟨0, 11/10, 1⟩ : PoseLandmark)),
        ("right_ankle", ⟨0, 11/10, 1⟩)] : Landmarks) ≠ [] := by simp
    norm_num [RepCounter.update, RepCounter.init, if_neg hne, _count_jumps, hla, hra,
      jumpStep, _get_exercise_thresholds, Option.getD]
  rcases h hinc with ⟨het | het, _, _⟩ | ⟨_, _, hph⟩
  · exact absurd het (by simp [RepCounter.init])
  · exact absurd het (by simp [RepCounter.init])
  · exact hph

/-- Claim C1: the squat thresholds are `down = 110`, `up = 160`; the
squat step moves `NEUTRAL → DOWN` below 110, `DOWN → UP` above 160 with
exactly one rep added, `UP → NEUTRAL` above 160 without a rep, and
otherwise changes nothing; a counter's update follows this step
whenever the analysis carries a knee angle; and the knee-angle trace
`[170, 100, 60, 170]` from the initial state ends with one rep in
phase `UP`. -/
theorem squat_counter_spec :
    ∀ th : Thresholds, _get_exercise_thresholds .SQUAT = some th →
      (∀ (r : ℕ) (θ : ℝ),
        (θ < 110 → squatStep th .NEUTRAL r (some θ) = (.DOWN, r)) ∧
        (¬ θ < 110 → squatStep th .NEUTRAL r (some θ) = (.NEUTRAL, r)) ∧
        (160 < θ → squatStep th .DOWN r (some θ) = (.UP, r + 1)) ∧
        (¬ 160 < θ → squatStep th .DOWN r (some θ) = (.DOWN, r)) ∧
        (160 < θ → squatStep th .UP r (some θ) = (.NEUTRAL, r)) ∧
        (¬ 160 < θ → squatStep th .UP r (some θ) = (.UP, r)) ∧
        squatStep th .EXTENDED r (some θ) = (.EXTENDED, r)) ∧
      (∀ (c : RepCounter) (lm : Landmarks) (ka : FloatAngle),
        c.exercise_type = .SQUAT → c.thresholds = some th → lm ≠ [] →
        (analyze_squat_posture lm).knee_angle = some ka →
        (c.update lm).1.current_phase = (squatStep th c.current_phase c.rep_count ka).1 ∧
        (c.update lm).1.rep_count = (squatStep th c.current_phase c.rep_count ka).2 ∧
        (c.update lm).2.1 = (squatStep th c.current_phase c.rep_count ka).2) ∧
      List.foldl (fun (s : ExercisePhase × ℕ) (θ : ℝ) => squatStep th s.1 s.2 (some θ))
        (.NEUTRAL, 0) [170, 100, 60, 170] = (.UP, 1) := by
  intro th hth
  have hth' : th = { down_threshold := 110, up_threshold := 160, min_hold_frames := 3 } := by
    have := hth.symm
    simpa [_get_exercise_thresholds] using this
  subst hth'
  have hdown : (((110 : ℚ) : ℝ)) = 110 := by norm_num
  have hup : (((160 : ℚ) : ℝ)) = 160 := by norm_num
  refine ⟨?_, ?_, ?_⟩
  · intro r θ
    refine ⟨fun h => by simp [squatStep, hdown, h],
      fun h => by simp [squatStep, hdown, h],
      fun h => by simp [squatStep, hup, h],
      fun h => by simp [squatStep, hup, h],
      fun h => by simp [squatStep, hup, h],
      fun h => by simp [squatStep, hup, h],
      by simp [squatStep]⟩
  · intro c lm ka htype hthr hne hka
    rcases c with ⟨et, ct, rc, ph, hist, base, ths⟩
    cases htype
    cases hthr
    simp only [RepCounter.update, if_neg hne, _count_squats, hka]
    exact ⟨rfl, rfl, rfl⟩
  · have s1 : squatStep { down_threshold := 110, up_threshold := 160, min_hold_frames := 3 }
        .NEUTRAL 0 (some (170 : ℝ)) = (.NEUTRAL, 0) := by
      simp [squatStep, hdown]
      norm_num
    have s2 : squatStep { down_threshold := 110, up_threshold := 160, min_hold_frames := 3 }
        .NEUTRAL 0 (some (100 : ℝ)) = (.DOWN, 0) := by
      simp [squatStep, hdown]
      norm_num
    have s3 : squatStep { down_threshold := 110, up_threshold := 160, min_hold_frames := 3 }
        .DOWN 0 (some (60 : ℝ)) = (.DOWN, 0) := by
      simp [squatStep, hup]
      norm_num
    have s4 : squatStep { down_threshold := 110, up_threshold := 160, min_hold_frames := 3 }
        .DOWN 0 (some (170 : ℝ)) = (.UP, 1) := by
      simp [squatStep, hup]
      norm_num
    simp only [List.foldl, s1, s2, s3, s4]

/-- Witness for C1: the four-frame knee-angle trace ends at one rep in
phase `UP` under the source's squat thresholds. -/
theorem squat_counter_spec_witness :
    List.foldl (fun (s : ExercisePhase × ℕ) (θ : ℝ) =>
        squatStep { down_threshold := 110, up_threshold := 160, min_hold_frames := 3 }
          s.1 s.2 (some θ))
      (.NEUTRAL, 0) [170, 100, 60, 170] = (.UP, 1) :=
  (squat_counter_spec { down_threshold := 110, up_threshold := 160, min_hold_frames := 3 }
    rfl).2.2

/-- Claim C2: the jump baseline is captured once, from the first frame
where both ankles are in the landmark set, as the average ankle height;
later updates never recalibrate it; and with displacement = baseline
minus current average ankle height, the step moves `NEUTRAL → UP` above
`0.1`, `UP → DOWN` with exactly one rep below `-0.05`, and
`DOWN → NEUTRAL` when the magnitude is below `0.02`, else nothing. -/
theorem jump_counter_spec :
    ∀ th : Thresholds, _get_exercise_thresholds .JUMP = some th →
      (∀ (c : RepCounter) (lm : Landmarks) (la ra : PoseLandmark),
        c.exercise_type = .JUMP → c.baseline_y = none → lm ≠ [] →
        lmGet lm "left_ankle" = some la → lmGet lm "right_ankle" = some ra →
        (c.update lm).1.baseline_y = some ((la.y + ra.y) / 2)) ∧
      (∀ (c : RepCounter) (lm : Landmarks) (b : ℚ),
        c.exercise_type = .JUMP → c.baseline_y = some b →
        (c.update lm).1.baseline_y = some b) ∧
      (∀ (r : ℕ) (d : ℚ),
        (1/10 < d → jumpStep th .NEUTRAL r d = (.UP, r)) ∧
        (¬ 1/10 < d → jumpStep th .NEUTRAL r d = (.NEUTRAL, r)) ∧
        (d < -1/20 → jumpStep th .UP r d = (.DOWN, r + 1)) ∧
        (¬ d < -1/20 → jumpStep th .UP r d = (.UP, r)) ∧
        (|d| < 1/50 → jumpStep th .DOWN r d = (.NEUTRAL, r)) ∧
        (¬ |d| < 1/50 → jumpStep th .DOWN r d = (.DOWN, r))) ∧
      (∀ (c : RepCounter) (lm : Landmarks) (la ra : PoseLandmark) (b : ℚ),
        c.exercise_type = .JUMP → c.thresholds = some th → c.baseline_y = some b →
        lm ≠ [] → lmGet lm "left_ankle" = some la → lmGet lm "right_ankle" = some ra →
        (c.update lm).1.current_phase =
          (jumpStep th c.current_phase c.rep_count (b - (la.y + ra.y) / 2)).1 ∧
        (c.update lm).1.rep_count =
          (jumpStep th c.current_phase c.rep_count (b - (la.y + ra.y) / 2)).2) := by
  intro th hth
  have hth' : th = { down_threshold := -1/20, up_threshold := 1/10, min_hold_frames := 2 } := by
    have := hth.symm
    simpa [_get_exercise_thresholds] using this
  subst hth'
  refine ⟨?_, ?_, ?_, ?_⟩
  · intro c lm la ra htype hbase hne hla hra
    rcases c with ⟨et, ct, rc, ph, hist, base, ths⟩
    cases htype
    cases hbase
    simp [RepCounter.update, if_neg hne, _count_jumps, hla, hra]
  · intro c lm b htype hbase
    rcases c with ⟨et, ct, rc, ph, hist, base, ths⟩
    cases htype
    cases hbase
    by_cases hne : lm = []
    · subst hne
      rfl
    · simp only [RepCounter.update, if_neg hne]
      rcases h1 : lmGet lm "left_ankle" with _ | la
      · simp [_count_jumps, h1]
      · rcases h2 : lmGet lm "right_ankle" with _ | ra
        · simp [_count_jumps, h1, h2]
        · simp [_count_jumps, h1, h2]
  · intro r d
    refine ⟨fun h => ?_, fun h => ?_, fun h => ?_, fun h => ?_, fun h => ?_, fun h => ?_⟩
    · simp only [jumpStep]
      rw [if_pos h]
    · simp only [jumpStep]
      rw [if_neg h]
    · simp only [jumpStep]
      rw [if_pos h]
    · simp only [jumpStep]
      rw [if_neg h]
    · simp only [jumpStep]
      rw [if_pos h]
    · simp only [jumpStep]
      rw [if_neg h]
  · intro c lm la ra b htype hthr hbase hne hla hra
    rcases c with ⟨et, ct, rc, ph, hist, base, ths⟩
    cases htype
    cases hthr
    cases hbase
    simp only [RepCounter.update, if_neg hne, _count_jumps, hla, hra]
    exact ⟨rfl, rfl⟩

/-- Witness for C2: a fresh jump counter captures baseline `1` from the
first frame with both ankles at height `1`. -/
theorem jump_counter_spec_witness :
    ((RepCounter.init .JUMP (7/10)).update
      [("left_ankle", ⟨0, 1, 1⟩), ("right_ankle", ⟨0, 1, 1⟩)]).1.baseline_y = some 1 := by
  have h := (jump_counter_spec
    { down_threshold := -1/20, up_threshold := 1/10, min_hold_frames := 2 } rfl).1
    (RepCounter.init .JUMP (7/10))
    [("left_ankle", ⟨0, 1, 1⟩), ("right_ankle", ⟨0, 1, 1⟩)]
    ⟨0, 1, 1⟩ ⟨0, 1, 1⟩ rfl rfl (by simp) rfl rfl
  simpa using h

end Sportify
